import Mathlib

/-
Shallow embedding of the calorie-app backend (src/app.py).

The pipeline lives in one Flask handler, `calculate_calories`, built on two
pure estimator functions `estimate_heart_rate` and `estimate_body_temp`.
Numeric values are modelled as rationals.  Every concrete value evaluated by a
theorem below is an exact dyadic computation on which Python float arithmetic
and exact rational arithmetic coincide.  Python`s `round(x, 2)` rounds the
exact value of the float to the nearest multiple of 1/100 with ties going to
the even last digit; `round2` below models exactly that.

JSON values that can appear as a request field are modelled by `PyVal`:
numbers (Python int/float/bool), strings (carrying the result that Python
`float(s)` would produce on them, `none` when `float` raises ValueError),
null, and other containers.  `pyFloat` models Python `float(...)` (ValueError
on a non-numeric string, TypeError on null/containers) and `pyLower` models
`.lower()` (AttributeError on any non-string).
-/

inductive PyVal where
  | num (q : ℚ)
  | str (s : String) (asNum : Option ℚ)
  | null
  | coll
deriving DecidableEq

inductive PyErr where
  | valueError
  | typeError
  | attributeError
deriving DecidableEq

/-- Python float(v): ok on numbers and numeric strings, ValueError on other
strings, TypeError on null and containers. -/
def pyFloat : PyVal → Except PyErr ℚ
  | .num q => .ok q
  | .str _ (some q) => .ok q
  | .str _ none => .error .valueError
  | .null => .error .typeError
  | .coll => .error .typeError

/-- Python str.lower() on the ASCII strings the handler compares: lower-case
every character. -/
def pyStrLower (s : String) : String := String.mk (s.data.map Char.toLower)

/-- Python v.lower(): ok on strings, AttributeError otherwise. -/
def pyLower : PyVal → Except PyErr String
  | .str s _ => .ok (pyStrLower s)
  | _ => .error .attributeError

/-- True when float(v) succeeds. -/
def floatable : PyVal → Bool
  | .num _ => true
  | .str _ (some _) => true
  | _ => false

/-- True when float(v) raises at most ValueError (v is a number or a string). -/
def strOrNum : PyVal → Bool
  | .num _ => true
  | .str _ _ => true
  | _ => false

/-- True when v is a Python string. -/
def isStr : PyVal → Bool
  | .str _ _ => true
  | _ => false

/-- The intensity_factors dict lookup with default 0.3 (app.py lines 19-25). -/
def intensity_factors (workout_type : PyVal) : ℚ :=
  match workout_type with
  | .str s _ =>
      if s = "Cardio" then 0.85
      else if s = "Endurance" then 0.7
      else if s = "Strength" then 0.5
      else if s = "No Workout" then 0.3
      else 0.3
  | _ => 0.3

/-- estimate_heart_rate (app.py lines 14-31). -/
def estimate_heart_rate (age : ℚ) (workout_type : PyVal) (duration : ℚ) : ℚ :=
  let max_hr := 220 - age
  let resting_hr : ℚ := 70
  let intensity := intensity_factors workout_type
  let duration_factor := max (1/2 : ℚ) (1 - duration / 180)
  let estimated_hr := resting_hr + (max_hr - resting_hr) * intensity * duration_factor
  max 60 (min estimated_hr 200)

/-- The temp_increase_rate dict lookup with default 0.2 (app.py lines 36-42). -/
def temp_increase_rate (workout_type : PyVal) : ℚ :=
  match workout_type with
  | .str s _ =>
      if s = "Cardio" then 1.5
      else if s = "Endurance" then 1
      else if s = "Strength" then 0.6
      else if s = "No Workout" then 0.2
      else 0.2
  | _ => 0.2

/-- Round a rational to the nearest integer, ties to even: the rounding Python
round() applies to the exact value of its float argument. -/
def roundHalfEven (q : ℚ) : ℤ :=
  if q - ⌊q⌋ < 1/2 then ⌊q⌋
  else if 1/2 < q - ⌊q⌋ then ⌊q⌋ + 1
  else if ⌊q⌋ % 2 = 0 then ⌊q⌋ else ⌊q⌋ + 1

/-- Python round(x, 2) on an exactly-represented value. -/
def round2 (q : ℚ) : ℚ := (roundHalfEven (q * 100) : ℚ) / 100

/-- estimate_body_temp (app.py lines 33-44). -/
def estimate_body_temp (duration : ℚ) (workout_type : PyVal) : ℚ :=
  let base_temp : ℚ := 37
  let temp_increase := temp_increase_rate workout_type * (duration / 60)
  round2 (base_temp + temp_increase)

/-- valid_workout_types (app.py line 79). -/
def valid_workout_types : List String := ["Cardio", "Endurance", "Strength", "No Workout"]

/-- Membership test of app.py line 80: workout_type in valid_workout_types. -/
def isValidWorkoutType (workout_type : PyVal) : Bool :=
  match workout_type with
  | .str s _ => valid_workout_types.contains s
  | _ => false

/-- Python equality of a request value against a workout-type label string. -/
def pyEqLabel (workout_type : PyVal) (l : String) : Bool :=
  match workout_type with
  | .str s _ => s = l
  | _ => false

/-- The one-hot dict comprehension of app.py line 84. -/
def workout_encoded (workout_type : PyVal) : List (String × ℚ) :=
  valid_workout_types.map (fun wt => ("workout_type_" ++ wt, if pyEqLabel workout_type wt then 1 else 0))

/-- The features dict of app.py lines 90-99. -/
def assemble (age gender height weight normalized_duration heart_rate body_temp : ℚ)
    (workout_type : PyVal) : List (String × ℚ) :=
  [("Age", age), ("Gender", gender), ("Height", height), ("Weight", weight),
   ("Duration", normalized_duration), ("Heart_Rate", heart_rate), ("Body_Temp", body_temp)]
    ++ workout_encoded workout_type

/-- Schema reconciliation of app.py lines 104-109: every schema column absent
from the produced mapping is filled with 0, then the columns are selected in
schema order (dropping columns not in the schema). -/
def reconcile (FEATURE_COLUMNS : List String) (features : List (String × ℚ)) : List (String × ℚ) :=
  FEATURE_COLUMNS.map (fun col => (col, (List.lookup col features).getD 0))

/-- Which range check fired (app.py lines 65-72). -/
inductive RangeField where
  | age
  | height
  | weight
  | duration
deriving DecidableEq

/-- The handler`s possible JSON responses, one constructor per return site. -/
inductive Resp where
  | ok (calories_burned estimated_heart_rate estimated_body_temp : ℚ)
  | missingFields
  | invalidType
  | rangeError (f : RangeField)
  | serverError (e : PyErr)
deriving DecidableEq

/-- The HTTP status attached to each response (app.py lines 54, 66-72, 118, 121, 123). -/
def Resp.status : Resp → Nat
  | .ok _ _ _ => 200
  | .missingFields => 400
  | .invalidType => 400
  | .rangeError _ => 400
  | .serverError _ => 500

/-- The parsed request object: each key of the JSON body that the handler
reads, present (`some v`) or absent (`none`). -/
structure Req where
  gender : Option PyVal
  age : Option PyVal
  height : Option PyVal
  weight : Option PyVal
  duration : Option PyVal
  workout_type : Option PyVal

/-- The external model: predict over a feature vector, possibly raising. -/
abbrev Predictor := List (String × ℚ) → Except PyErr ℚ

/-- Body of the try block, app.py lines 56-118, given the six present field
values.  Early `return jsonify(...)` sites are `.ok` responses; Python
exceptions travel in the `Except` error channel. -/
def tryBody (FEATURE_COLUMNS : List String) (predict : Predictor)
    (g a h w d wtv : PyVal) : Except PyErr Resp :=
  (pyLower g).bind fun glow =>
  let gender : ℚ := if glow = "male" then 0 else 1
  (pyFloat a).bind fun age =>
  (pyFloat h).bind fun height =>
  (pyFloat w).bind fun weight =>
  (pyFloat d).bind fun duration =>
  let workout_type := wtv
  if ¬ (10 ≤ age ∧ age ≤ 100) then .ok (.rangeError .age)
  else if ¬ (50 ≤ height ∧ height ≤ 250) then .ok (.rangeError .height)
  else if ¬ (20 ≤ weight ∧ weight ≤ 300) then .ok (.rangeError .weight)
  else if ¬ (1 ≤ duration ∧ duration ≤ 300) then .ok (.rangeError .duration)
  else
    let heart_rate := estimate_heart_rate age workout_type duration
    let body_temp := estimate_body_temp duration workout_type
    let wt2 := if isValidWorkoutType workout_type then workout_type else .str ("No Workout") none
    let normalized_duration := duration / 180
    let features := assemble age gender height weight normalized_duration heart_rate body_temp wt2
    let input_df := reconcile FEATURE_COLUMNS features
    (predict input_df).bind fun prediction =>
    .ok (.ok (round2 prediction) (round2 heart_rate) (round2 body_temp))

/-- The except clauses of app.py lines 120-123: ValueError becomes the 400
invalid-type response, any other exception the 500 server-error response. -/
def handleErrors : Except PyErr Resp → Resp
  | .ok r => r
  | .error .valueError => .invalidType
  | .error e => .serverError e

/-- The all(field in data for field in required_fields) check, app.py line 53. -/
def requiredPresent (data : Req) : Bool :=
  data.gender.isSome && data.age.isSome && data.height.isSome &&
  data.weight.isSome && data.duration.isSome && data.workout_type.isSome

/-- The whole handler calculate_calories (app.py lines 47-123), parametrised
by the loaded FEATURE_COLUMNS schema and the loaded model`s predict. -/
def calculate_calories (FEATURE_COLUMNS : List String) (predict : Predictor) (data : Req) : Resp :=
  if requiredPresent data then
    handleErrors (tryBody FEATURE_COLUMNS predict
      (data.gender.getD .null) (data.age.getD .null) (data.height.getD .null)
      (data.weight.getD .null) (data.duration.getD .null) (data.workout_type.getD .null))
  else .missingFields

/-! ### Concrete requests used by witnesses and counterexamples -/

/-- The spec`s worked example: gender Male, age 30, height 175, weight 70,
duration 45, workout type Cardio. -/
def reqC2 : Req := ⟨some (.str ("Male") none), some (.num 30), some (.num 175),
  some (.num 70), some (.num 45), some (.str ("Cardio") none)⟩

/-- The worked example with the age field removed. -/
def reqMissingAge : Req := ⟨some (.str ("Male") none), none, some (.num 175),
  some (.num 70), some (.num 45), some (.str ("Cardio") none)⟩

/-- The worked example with the workout_type field removed. -/
def reqNoWorkoutField : Req := ⟨some (.str ("Male") none), some (.num 30), some (.num 175),
  some (.num 70), some (.num 45), none⟩

/-- The worked example with age = null (JSON null). -/
def reqNullAge : Req := ⟨some (.str ("Male") none), some .null, some (.num 175),
  some (.num 70), some (.num 45), some (.str ("Cardio") none)⟩

/-- The worked example with age the non-numeric string "abc". -/
def reqBadAge : Req := ⟨some (.str ("Male") none), some (.str ("abc") none), some (.num 175),
  some (.num 70), some (.num 45), some (.str ("Cardio") none)⟩

/-- The worked example with the number 1 as gender. -/
def reqNumGender : Req := ⟨some (.num 1), some (.num 30), some (.num 175),
  some (.num 70), some (.num 45), some (.str ("Cardio") none)⟩

/-! ### Helper lemmas -/

theorem reconcile_map_fst (cols : List String) (f : List (String × ℚ)) :
    (reconcile cols f).map Prod.fst = cols := by
  induction cols with
  | nil => rfl
  | cons c cs ih => simpa [reconcile] using ih

theorem reconcile_mem (cols : List String) (f : List (String × ℚ)) {col : String}
    (h : col ∈ cols) : (col, (List.lookup col f).getD 0) ∈ reconcile cols f :=
  List.mem_map_of_mem _ h

theorem clamp_mono {x y : ℚ} (h : x ≤ y) : max 60 (min x 200) ≤ max 60 (min y 200) :=
  max_le_max le_rfl (min_le_min h le_rfl)

theorem intensity_factors_pos (wt : PyVal) : 0 < intensity_factors wt := by
  rcases wt with q | ⟨s, n⟩ | _ | _ <;> simp only [intensity_factors] <;>
    first
      | (split_ifs <;> norm_num)
      | norm_num

/-! ### Claims -/

/-- Claim C1: for every schema (ordered column list) and every assembled
mapping, the reconciled feature vector handed to the predictor has exactly
the schema`s columns in the schema`s order; a schema column absent from the
produced mapping is inserted with value 0, a present column keeps its
produced value, and every column of the result is a schema column (extras
are dropped).  Reconciliation is total: it never fails. -/
theorem calorie_app_feature_vector_matches_schema
    (FEATURE_COLUMNS : List String)
    (age gender height weight normalized_duration heart_rate body_temp : ℚ)
    (workout_type : PyVal) :
    ((reconcile FEATURE_COLUMNS
        (assemble age gender height weight normalized_duration heart_rate body_temp workout_type)).map
          Prod.fst = FEATURE_COLUMNS)
    ∧ (∀ col, col ∈ FEATURE_COLUMNS →
        List.lookup col (assemble age gender height weight normalized_duration heart_rate body_temp workout_type) = none →
        (col, (0 : ℚ)) ∈ reconcile FEATURE_COLUMNS
          (assemble age gender height weight normalized_duration heart_rate body_temp workout_type))
    ∧ (∀ col q, col ∈ FEATURE_COLUMNS →
        List.lookup col (assemble age gender height weight normalized_duration heart_rate body_temp workout_type) = some q →
        (col, q) ∈ reconcile FEATURE_COLUMNS
          (assemble age gender height weight normalized_duration heart_rate body_temp workout_type))
    ∧ (∀ p, p ∈ reconcile FEATURE_COLUMNS
          (assemble age gender height weight normalized_duration heart_rate body_temp workout_type) →
        p.1 ∈ FEATURE_COLUMNS) := by
  refine ⟨reconcile_map_fst _ _, ?_, ?_, ?_⟩
  · intro col hmem hnone
    have := reconcile_mem FEATURE_COLUMNS
      (assemble age gender height weight normalized_duration heart_rate body_temp workout_type) hmem
    rwa [hnone] at this
  · intro col q hmem hsome
    have := reconcile_mem FEATURE_COLUMNS
      (assemble age gender height weight normalized_duration heart_rate body_temp workout_type) hmem
    rwa [hsome] at this
  · intro p hp
    rcases List.mem_map.mp hp with ⟨c, hc, rfl⟩
    exact hc

/-- Claim C3: a request lacking any of gender, age, height, weight, duration
is answered with the missing-fields client error, whatever the other fields
hold and whatever the schema and predictor are; neither estimation nor
prediction influences the response. -/
theorem calorie_app_missing_field_rejected
    (FEATURE_COLUMNS : List String) (predict : Predictor) (data : Req)
    (hmiss : data.gender = none ∨ data.age = none ∨ data.height = none ∨
             data.weight = none ∨ data.duration = none) :
    calculate_calories FEATURE_COLUMNS predict data = .missingFields := by
  unfold calculate_calories requiredPresent
  rcases hmiss with h | h | h | h | h <;> simp [h]

/-- Witness for C3 at a concrete request missing only the age field. -/
theorem calorie_app_missing_field_rejected_witness :
    calculate_calories [] (fun _ => .ok 0) reqMissingAge = .missingFields :=
  calorie_app_missing_field_rejected [] (fun _ => .ok 0) reqMissingAge (Or.inr (Or.inl rfl))

/-- Claim C6: the heart-rate estimate is clamped into [60, 200] for every
age, workout type and duration. -/
theorem calorie_app_heart_rate_bounds (age duration : ℚ) (workout_type : PyVal) :
    60 ≤ estimate_heart_rate age workout_type duration ∧
    estimate_heart_rate age workout_type duration ≤ 200 := by
  unfold estimate_heart_rate
  exact ⟨le_max_left _ _, max_le (by norm_num) (min_le_right _ _)⟩

/-- Claim C7: for a fixed age in [10, 100] and a fixed workout type, the
heart-rate estimate is non-increasing in duration below the duration-factor
floor (durations up to 90 minutes). -/
theorem calorie_app_heart_rate_antitone (age d1 d2 : ℚ) (workout_type : PyVal)
    (h10 : 10 ≤ age) (h100 : age ≤ 100) (h12 : d1 ≤ d2) (h90 : d2 ≤ 90) :
    estimate_heart_rate age workout_type d2 ≤ estimate_heart_rate age workout_type d1 := by
  unfold estimate_heart_rate
  apply clamp_mono
  apply add_le_add_left
  apply mul_le_mul_of_nonneg_left
  · exact max_le_max le_rfl (by linarith)
  · have := intensity_factors_pos workout_type
    nlinarith

/-- Witness for C7: age 30, Cardio, durations 30 and 60 minutes. -/
theorem calorie_app_heart_rate_antitone_witness :
    estimate_heart_rate 30 (PyVal.str ("Cardio") none) 60 ≤
      estimate_heart_rate 30 (PyVal.str ("Cardio") none) 30 :=
  calorie_app_heart_rate_antitone 30 30 60 (PyVal.str ("Cardio") none)
    (by norm_num) (by norm_num) (by norm_num) (by norm_num)

/-- The unrecognized label "Yoga". -/
def wtYoga : PyVal := .str ("Yoga") none

/-- The label "NoWorkout" exactly as the spec writes it (the code`s own
recognized label is "No Workout", with a space). -/
def wtNoWorkout : PyVal := .str ("NoWorkout") none

theorem tryBody_workout_congr (FEATURE_COLUMNS : List String) (predict : Predictor)
    (g a h w d : PyVal) (w1 w2 : PyVal)
    (hi : intensity_factors w1 = intensity_factors w2)
    (ht : temp_increase_rate w1 = temp_increase_rate w2)
    (hv : (if isValidWorkoutType w1 then w1 else PyVal.str ("No Workout") none)
        = (if isValidWorkoutType w2 then w2 else PyVal.str ("No Workout") none)) :
    tryBody FEATURE_COLUMNS predict g a h w d w1
      = tryBody FEATURE_COLUMNS predict g a h w d w2 := by
  simp only [tryBody, estimate_heart_rate, estimate_body_temp, hi, ht, hv]

/-- Claim C2 counterexample: on the spec`s worked example (gender Male,
age 30, height 175, weight 70, duration 45, Cardio) the response carries
estimated_body_temp 38.12, not 38.13: Python round() takes the exact value
38.125 to the even hundredth. -/
theorem calorie_app_body_temp_round_counterexample :
    calculate_calories [] (fun _ => .ok 0) reqC2 = .ok 0 146.5 38.12 ∧
    (38.12 : ℚ) ≠ (38.13 : ℚ) :=
  ⟨by with_unfolding_all rfl, by norm_num⟩

/-- Claim C2 amended: on the worked example, for every schema and every
successful prediction c, the response is calories round2 c,
estimated_heart_rate 146.5 and estimated_body_temp 38.12. -/
theorem calorie_app_example_derived_signals (FEATURE_COLUMNS : List String) (c : ℚ) :
    calculate_calories FEATURE_COLUMNS (fun _ => .ok c) reqC2
      = .ok (round2 c) 146.5 38.12 := by with_unfolding_all rfl

/-- Claim C4 counterexample: the otherwise-valid worked example without a
workout_type field is rejected with the missing-fields client error instead
of completing with a defaulted workout type. -/
theorem calorie_app_absent_workout_counterexample :
    calculate_calories [] (fun _ => .ok 0) reqNoWorkoutField = .missingFields ∧
    Resp.status .missingFields = 400 :=
  ⟨by with_unfolding_all rfl, rfl⟩

/-- Claim C4 amended: workout_type is in the handler`s required_fields list,
so every request lacking it is answered with the missing-fields error (the
"No Workout" default of the later data.get is unreachable). -/
theorem calorie_app_absent_workout_missing_fields
    (FEATURE_COLUMNS : List String) (predict : Predictor) (data : Req)
    (h : data.workout_type = none) :
    calculate_calories FEATURE_COLUMNS predict data = .missingFields := by
  unfold calculate_calories requiredPresent
  simp [h]

/-- Witness for the amended C4 at a concrete request. -/
theorem calorie_app_absent_workout_missing_fields_witness :
    calculate_calories [] (fun _ => .ok 0) reqNoWorkoutField = .missingFields :=
  calorie_app_absent_workout_missing_fields [] (fun _ => .ok 0) reqNoWorkoutField rfl

/-- Claim C5: a request with the unrecognized workout type "Yoga" is handled
exactly like the same request with workout type "NoWorkout": the whole
response (hence the feature vector seen by every predictor) agrees, the two
estimator outputs agree, and on the worked example the Yoga request
completes without error. -/
theorem calorie_app_unrecognized_workout_equiv :
    (∀ (FEATURE_COLUMNS : List String) (predict : Predictor) (g a h w d : Option PyVal),
        calculate_calories FEATURE_COLUMNS predict ⟨g, a, h, w, d, some wtYoga⟩
          = calculate_calories FEATURE_COLUMNS predict ⟨g, a, h, w, d, some wtNoWorkout⟩)
    ∧ (∀ age duration : ℚ,
        estimate_heart_rate age wtYoga duration = estimate_heart_rate age wtNoWorkout duration)
    ∧ (∀ duration : ℚ,
        estimate_body_temp duration wtYoga = estimate_body_temp duration wtNoWorkout)
    ∧ calculate_calories [] (fun _ => .ok 0)
        ⟨some (.str ("Male") none), some (.num 30), some (.num 175), some (.num 70),
         some (.num 45), some wtYoga⟩ = .ok 0 97 37.15 := by
  refine ⟨?_, ?_, ?_, by with_unfolding_all rfl⟩
  · intro FC predict g a h w d
    unfold calculate_calories
    have hreq : requiredPresent ⟨g, a, h, w, d, some wtYoga⟩
        = requiredPresent ⟨g, a, h, w, d, some wtNoWorkout⟩ := rfl
    rw [hreq]
    split
    · exact congrArg handleErrors
        (tryBody_workout_congr FC predict (g.getD .null) (a.getD .null) (h.getD .null)
          (w.getD .null) (d.getD .null) wtYoga wtNoWorkout rfl rfl rfl)
    · rfl
  · intro age duration
    have hI : intensity_factors wtYoga = intensity_factors wtNoWorkout := rfl
    simp only [estimate_heart_rate, hI]
  · intro duration
    have hT : temp_increase_rate wtYoga = temp_increase_rate wtNoWorkout := rfl
    simp only [estimate_body_temp, hT]

theorem except_bind_ok {ε α β : Type} (x : α) (f : α → Except ε β) :
    (Except.ok x : Except ε α).bind f = f x := rfl

theorem except_bind_err {ε α β : Type} (e : ε) (f : α → Except ε β) :
    (Except.error e : Except ε α).bind f = Except.error e := rfl

theorem pyLower_ok (v : PyVal) (hv : isStr v = true) : ∃ s, pyLower v = .ok s := by
  rcases v with q | ⟨s, n⟩ | _ | _
  · simp [isStr] at hv
  · exact ⟨pyStrLower s, rfl⟩
  · simp [isStr] at hv
  · simp [isStr] at hv

theorem pyFloat_ok (v : PyVal) (hv : floatable v = true) : ∃ q, pyFloat v = .ok q := by
  rcases v with q | ⟨s, _ | q⟩ | _ | _
  · exact ⟨q, rfl⟩
  · simp [floatable] at hv
  · exact ⟨q, rfl⟩
  · simp [floatable] at hv
  · simp [floatable] at hv

theorem pyFloat_fail (v : PyVal) (h1 : strOrNum v = true) (h2 : floatable v = false) :
    pyFloat v = .error .valueError := by
  rcases v with q | ⟨s, _ | q⟩ | _ | _
  · simp [floatable] at h2
  · rfl
  · simp [floatable] at h2
  · simp [strOrNum] at h1
  · simp [strOrNum] at h1

theorem tryBody_float_fail (FEATURE_COLUMNS : List String) (predict : Predictor)
    (g a h w d wtv : PyVal) (glow : String)
    (hglow : pyLower g = .ok glow)
    (hsa : strOrNum a = true) (hsh : strOrNum h = true)
    (hsw : strOrNum w = true) (hsd : strOrNum d = true)
    (hfail : floatable a = false ∨ floatable h = false ∨ floatable w = false ∨
             floatable d = false) :
    tryBody FEATURE_COLUMNS predict g a h w d wtv = .error .valueError := by
  unfold tryBody
  rcases hfail with hfa | hfh | hfw | hfd
  · simp only [hglow, except_bind_ok, pyFloat_fail a hsa hfa, except_bind_err]
  · rcases Bool.eq_false_or_eq_true (floatable a) with hfa | hfa
    · obtain ⟨qa, hqa⟩ := pyFloat_ok a hfa
      simp only [hglow, hqa, except_bind_ok, pyFloat_fail h hsh hfh, except_bind_err]
    · simp only [hglow, except_bind_ok, pyFloat_fail a hsa hfa, except_bind_err]
  · rcases Bool.eq_false_or_eq_true (floatable a) with hfa | hfa
    · obtain ⟨qa, hqa⟩ := pyFloat_ok a hfa
      rcases Bool.eq_false_or_eq_true (floatable h) with hfh | hfh
      · obtain ⟨qh, hqh⟩ := pyFloat_ok h hfh
        simp only [hglow, hqa, hqh, except_bind_ok, pyFloat_fail w hsw hfw, except_bind_err]
      · simp only [hglow, hqa, except_bind_ok, pyFloat_fail h hsh hfh, except_bind_err]
    · simp only [hglow, except_bind_ok, pyFloat_fail a hsa hfa, except_bind_err]
  · rcases Bool.eq_false_or_eq_true (floatable a) with hfa | hfa
    · obtain ⟨qa, hqa⟩ := pyFloat_ok a hfa
      rcases Bool.eq_false_or_eq_true (floatable h) with hfh | hfh
      · obtain ⟨qh, hqh⟩ := pyFloat_ok h hfh
        rcases Bool.eq_false_or_eq_true (floatable w) with hfw | hfw
        · obtain ⟨qw, hqw⟩ := pyFloat_ok w hfw
          simp only [hglow, hqa, hqh, hqw, except_bind_ok, pyFloat_fail d hsd hfd,
            except_bind_err]
        · simp only [hglow, hqa, hqh, except_bind_ok, pyFloat_fail w hsw hfw, except_bind_err]
      · simp only [hglow, hqa, except_bind_ok, pyFloat_fail h hsh hfh, except_bind_err]
    · simp only [hglow, except_bind_ok, pyFloat_fail a hsa hfa, except_bind_err]

/-- Claim C8 counterexample: the worked example with age = null has all
required fields present and an age that does not parse as a number, yet the
response is the generic 500 server error (float(None) raises TypeError,
which the ValueError clause does not catch), not the invalid-type client
error. -/
theorem calorie_app_null_age_counterexample :
    calculate_calories [] (fun _ => .ok 0) reqNullAge = .serverError .typeError ∧
    Resp.serverError .typeError ≠ Resp.invalidType ∧
    Resp.status (.serverError .typeError) = 500 :=
  ⟨by with_unfolding_all rfl, by decide, rfl⟩

/-- Claim C8 amended: when all six fields are present, gender is a string,
age, height, weight and duration are each a number or a string, and at
least one of them is a string that does not parse as a number, the response
is the invalid-type client error (distinct from the missing-fields error)
for every schema and predictor — no range check or prediction influences
it. -/
theorem calorie_app_nonnumeric_string_invalid_type
    (FEATURE_COLUMNS : List String) (predict : Predictor) (data : Req)
    (g a h w d wtv : PyVal)
    (hg : data.gender = some g) (ha : data.age = some a) (hh : data.height = some h)
    (hw : data.weight = some w) (hd : data.duration = some d)
    (hwt : data.workout_type = some wtv)
    (hgs : isStr g = true)
    (hsa : strOrNum a = true) (hsh : strOrNum h = true)
    (hsw : strOrNum w = true) (hsd : strOrNum d = true)
    (hfail : floatable a = false ∨ floatable h = false ∨ floatable w = false ∨
             floatable d = false) :
    calculate_calories FEATURE_COLUMNS predict data = .invalidType ∧
    Resp.invalidType ≠ Resp.missingFields := by
  obtain ⟨glow, hglow⟩ := pyLower_ok g hgs
  refine ⟨?_, by decide⟩
  unfold calculate_calories requiredPresent
  simp [hg, ha, hh, hw, hd, hwt,
    tryBody_float_fail FEATURE_COLUMNS predict g a h w d wtv glow hglow hsa hsh hsw hsd hfail,
    handleErrors]

/-- Witness for the amended C8: age is the non-numeric string "abc". -/
theorem calorie_app_nonnumeric_string_invalid_type_witness :
    calculate_calories [] (fun _ => .ok 0) reqBadAge = .invalidType ∧
    Resp.invalidType ≠ Resp.missingFields :=
  calorie_app_nonnumeric_string_invalid_type [] (fun _ => .ok 0) reqBadAge
    (.str ("Male") none) (.str ("abc") none) (.num 175) (.num 70) (.num 45)
    (.str ("Cardio") none) rfl rfl rfl rfl rfl rfl rfl rfl rfl rfl rfl (Or.inl rfl)

/-- Claim C9 counterexample: on a fully valid request whose predictor raises
ValueError, the handler returns the 400 invalid-type client response, not a
500 server error — the except ValueError clause wraps the predict call
too. -/
theorem calorie_app_predictor_valueerror_counterexample :
    calculate_calories [] (fun _ => .error .valueError) reqC2 = .invalidType ∧
    Resp.status .invalidType = 400 ∧ Resp.status (.serverError .valueError) = 500 :=
  ⟨by with_unfolding_all rfl, rfl, rfl⟩

/-- Claim C9 amended: on a request that passes validation, a predictor
failure other than ValueError yields the 500 server-error response, whose
status is distinct from the 400 client-error statuses of the
missing-fields, invalid-type and range errors; the handler still returns a
response (it does not crash). -/
theorem calorie_app_predictor_error_server_status
    (FEATURE_COLUMNS : List String) (data : Req) (e : PyErr)
    (g a h w d wtv : PyVal) (glow : String) (aq hq wq dq : ℚ)
    (hg : data.gender = some g) (hglow : pyLower g = .ok glow)
    (ha : data.age = some a) (hfa : pyFloat a = .ok aq)
    (hh : data.height = some h) (hfh : pyFloat h = .ok hq)
    (hw : data.weight = some w) (hfw : pyFloat w = .ok wq)
    (hd : data.duration = some d) (hfd : pyFloat d = .ok dq)
    (hwt : data.workout_type = some wtv)
    (hra : 10 ≤ aq ∧ aq ≤ 100) (hrh : 50 ≤ hq ∧ hq ≤ 250)
    (hrw : 20 ≤ wq ∧ wq ≤ 300) (hrd : 1 ≤ dq ∧ dq ≤ 300)
    (he : e ≠ .valueError) :
    calculate_calories FEATURE_COLUMNS (fun _ => .error e) data = .serverError e ∧
    Resp.status (.serverError e) = 500 ∧ Resp.status .missingFields = 400 ∧
    Resp.status .invalidType = 400 ∧ (∀ f, Resp.status (.rangeError f) = 400) := by
  refine ⟨?_, rfl, rfl, rfl, fun f => rfl⟩
  unfold calculate_calories requiredPresent
  simp only [hg, ha, hh, hw, hd, hwt, Option.isSome_some, Bool.and_self, Option.getD_some,
    if_true]
  unfold tryBody
  simp only [hglow, hfa, hfh, hfw, hfd, except_bind_ok]
  rw [if_neg (not_not_intro hra), if_neg (not_not_intro hrh), if_neg (not_not_intro hrw),
    if_neg (not_not_intro hrd)]
  simp only [except_bind_err]
  cases e
  · exact absurd rfl he
  · rfl
  · rfl

/-- Witness for the amended C9: the worked example with a predictor that
raises TypeError. -/
theorem calorie_app_predictor_error_server_status_witness :
    calculate_calories [] (fun _ => .error .typeError) reqC2 = .serverError .typeError ∧
    Resp.status (.serverError .typeError) = 500 ∧ Resp.status .missingFields = 400 ∧
    Resp.status .invalidType = 400 ∧ (∀ f, Resp.status (.rangeError f) = 400) :=
  calorie_app_predictor_error_server_status [] reqC2 .typeError
    (.str ("Male") none) (.num 30) (.num 175) (.num 70) (.num 45) (.str ("Cardio") none)
    ("male") 30 175 70 45
    rfl rfl rfl rfl rfl rfl rfl rfl rfl rfl rfl
    (by norm_num) (by norm_num) (by norm_num) (by norm_num) (by decide)

/-- Claim C10: when all six fields are present but gender is not a string,
the handler lowercases it, raising AttributeError, which only the generic
except clause catches: the response is the 500 server error, never the 400
missing-fields, invalid-type or range client errors. -/
theorem calorie_app_nonstring_gender_server_error
    (FEATURE_COLUMNS : List String) (predict : Predictor) (data : Req) (g : PyVal)
    (hg : data.gender = some g) (hs : isStr g = false)
    (hp : requiredPresent data = true) :
    calculate_calories FEATURE_COLUMNS predict data = .serverError .attributeError ∧
    Resp.status (.serverError .attributeError) = 500 ∧ Resp.status .missingFields = 400 ∧
    Resp.status .invalidType = 400 ∧ (∀ f, Resp.status (.rangeError f) = 400) := by
  refine ⟨?_, rfl, rfl, rfl, fun f => rfl⟩
  have hlow : pyLower g = .error .attributeError := by
    rcases g with q | ⟨s, n⟩ | _ | _
    · rfl
    · simp [isStr] at hs
    · rfl
    · rfl
  unfold calculate_calories
  simp only [hp, if_true, hg, Option.getD_some]
  unfold tryBody
  simp only [hlow, except_bind_err]
  rfl

/-- Witness for C10: gender is the number 1, everything else valid. -/
theorem calorie_app_nonstring_gender_server_error_witness :
    calculate_calories [] (fun _ => .ok 0) reqNumGender = .serverError .attributeError ∧
    Resp.status (.serverError .attributeError) = 500 ∧ Resp.status .missingFields = 400 ∧
    Resp.status .invalidType = 400 ∧ (∀ f, Resp.status (.rangeError f) = 400) :=
  calorie_app_nonstring_gender_server_error [] (fun _ => .ok 0) reqNumGender (.num 1)
    rfl rfl rfl

/-- Witness for C1 on a schema holding one produced column and one column
the pipeline does not produce. -/
theorem calorie_app_feature_vector_matches_schema_witness :
    (reconcile ["Heart_Rate", "Extra_Col"]
        (assemble 30 0 175 70 (1/4) 146.5 38.12 (PyVal.str ("Cardio") none))).map Prod.fst
      = ["Heart_Rate", "Extra_Col"] ∧
    ("Extra_Col", (0 : ℚ)) ∈ reconcile ["Heart_Rate", "Extra_Col"]
        (assemble 30 0 175 70 (1/4) 146.5 38.12 (PyVal.str ("Cardio") none)) ∧
    ("Heart_Rate", (146.5 : ℚ)) ∈ reconcile ["Heart_Rate", "Extra_Col"]
        (assemble 30 0 175 70 (1/4) 146.5 38.12 (PyVal.str ("Cardio") none)) :=
  ⟨(calorie_app_feature_vector_matches_schema ["Heart_Rate", "Extra_Col"]
      30 0 175 70 (1/4) 146.5 38.12 (PyVal.str ("Cardio") none)).1,
   (calorie_app_feature_vector_matches_schema ["Heart_Rate", "Extra_Col"]
      30 0 175 70 (1/4) 146.5 38.12 (PyVal.str ("Cardio") none)).2.1
     ("Extra_Col") (by decide) (by with_unfolding_all decide),
   (calorie_app_feature_vector_matches_schema ["Heart_Rate", "Extra_Col"]
      30 0 175 70 (1/4) 146.5 38.12 (PyVal.str ("Cardio") none)).2.2.1
     ("Heart_Rate") 146.5 (by decide) (by with_unfolding_all decide)⟩
